import Mathlib

/-!
Shallow embedding of the LlamaIndexAPI repository (app/utils/image_utils.py,
app/db/vector_stores.py, app/api/ai_actions.py, app/server.py), followed by
theorems settling the claims about its specification.

Python byte strings are modelled as lists of byte values (`List Nat`); external
collaborators (HTTP image fetch, PIL JPEG re-encoding, the llama-index
retriever and the generation LLM, the random id source) are modelled as
explicit function parameters, so every operation of the repository becomes a
deterministic Lean function of its inputs and those oracles.  Side effects on
the durable vector store are made observable as explicit event lists.
-/

namespace LlamaIndexAPI

/-- Python `bytes`: a list of byte values. -/
abbrev Bytes := List Nat

/-- Python `str.encode()` (UTF-8).  Every string this codebase encodes is
ASCII (base64 text), for which UTF-8 is exactly the sequence of code points. -/
def strBytes (s : String) : Bytes := s.data.map Char.toNat

/-- Character `n` of the standard base64 alphabet. -/
def b64Char (n : Nat) : Char :=
  "ABCDEFGHIJKLMNOPQRSTUVWXYZabcdefghijklmnopqrstuvwxyz0123456789+/".data.getD n 'A'

/-- Python `base64.b64encode(..).decode()`: standard base64 text of a byte
string, with `=` padding.  Used to relate the inline base64-string form of an
image to its raw-bytes form. -/
def b64encode : Bytes → String
  | [] => ""
  | [a] =>
      String.mk [b64Char (a / 4), b64Char (a % 4 * 16), '=', '=']
  | [a, b] =>
      String.mk [b64Char (a / 4), b64Char (a % 4 * 16 + b / 16),
        b64Char (b % 16 * 4), '=']
  | a :: b :: c :: rest =>
      String.mk [b64Char (a / 4), b64Char (a % 4 * 16 + b / 16),
        b64Char (b % 16 * 4 + c / 64), b64Char (c % 64)] ++ b64encode rest

/-- The polymorphic `image` field of `ImageIngestionRequest`
(app/models/models.py line 142: `image: str | bytes | None`). -/
inductive ImageField where
  | str (s : String)
  | bytes (b : Bytes)
  | absent
  deriving DecidableEq, Repr

/-- `ImageIngestionRequest` (app/models/models.py lines 129-153).  The nested
`text_request` is reduced to its `text` field, the only part the embedded
operations read. -/
structure ImageIngestionRequest where
  userId : String
  image_url : Option String
  image : ImageField
  mimetype : String
  text_request : Option String
  deriving DecidableEq, Repr

/-- `image_req_to_base64` (app/utils/image_utils.py lines 63-89).
`fetch` models `fetch_image_from_url` (None on a non-200 response) and
`pilB64` models `pil_image_to_base64(Image.open(BytesIO(data)))`, the PIL
JPEG re-encode followed by base64 text.  Control flow is transcribed from the
source: a URL branch whose failed fetch falls off the end of the function
(implicit None), an inline branch returning `image.encode()` for a str and
the value unchanged for bytes, and None when no image is present. -/
def image_req_to_base64 (fetch : String → Option Bytes)
    (pilB64 : Bytes → String) (req : ImageIngestionRequest) : Option Bytes :=
  match req.image_url with
  | some url =>
      match fetch url with
      | some data => some (strBytes (pilB64 data))
      | none => none
  | none =>
      match req.image with
      | .str s => some (strBytes s)
      | .bytes b => some b
      | .absent => none

/-- A llama-index text `Document` as built by vector_stores.py: an id and a
text body. -/
structure Document where
  doc_id : String
  text : String
  deriving DecidableEq, Repr

/-- A llama-index `ImageNode` as built by `ingest_image`: an id and the
(possibly absent) image payload. -/
structure ImageNode where
  doc_id : String
  image : Option Bytes
  deriving DecidableEq, Repr

/-- Per-user collection name for text (vector_stores.py line 144). -/
def userTextCollectionName (user_id : String) : String := user_id ++ "_text"

/-- Per-user collection name for images (vector_stores.py line 149). -/
def userImageCollectionName (user_id : String) : String := user_id ++ "_image"

/-- Global text collection name (vector_stores.py line 103). -/
def globalTextCollectionName : String := "global_text_store"

/-- Global image collection name (vector_stores.py line 108). -/
def globalImageCollectionName : String := "global_image_store"

/-- The per-user `MultiModalVectorStoreIndex` over the two user collections,
with the documents and image nodes inserted through it. -/
structure UserIndex where
  textCollection : String
  imageCollection : String
  docs : List Document
  imageNodes : List ImageNode
  deriving DecidableEq, Repr

/-- One instance of the `VectorStore` class: the `user_index` slot plus the
global store handles set by `_async_init` (modelled by their collection
names). -/
structure VectorStore where
  user_index : Option UserIndex
  text_store : Option String
  image_store : Option String
  deriving DecidableEq, Repr

/-- An insertion against the durable Qdrant collections, the observable
side effect of index construction and ingestion. -/
inductive InsertEvent where
  | textDoc (collection : String) (doc : Document)
  | imageNode (collection : String) (node : ImageNode)
  deriving DecidableEq, Repr

/-- The id carried by an inserted item. -/
def InsertEvent.itemId : InsertEvent → String
  | .textDoc _ d => d.doc_id
  | .imageNode _ n => n.doc_id

/-- The bootstrap marker document inserted for a new user
(vector_stores.py lines 163-168). -/
def bootstrapMarker (user_id : String) : Document :=
  { doc_id := user_id
    text := user_id ++ " is the users global Appwrite User ID" }

/-- Result of `init_or_get_user_index`: the updated instance, the returned
index, and the durable insertions performed. -/
structure InitResult where
  store : VectorStore
  index : UserIndex
  events : List InsertEvent
  deriving DecidableEq, Repr

/-- `VectorStore.__init__` (vector_stores.py lines 70-88): every slot starts
empty.  Note the docstring of the source says an existing instance should
raise, but no such check exists. -/
def VectorStore.new : VectorStore :=
  { user_index := none, text_store := none, image_store := none }

/-- `VectorStore.init_or_get_user_index` (vector_stores.py lines 123-169):
return the cached per-instance index if present; otherwise build the two
per-user collections, build the index over them, and when `has_text_store`
is false insert the bootstrap marker document through it. -/
def VectorStore.init_or_get_user_index (vs : VectorStore) (user_id : String)
    (has_text_store : Bool) : InitResult :=
  match vs.user_index with
  | some idx => { store := vs, index := idx, events := [] }
  | none =>
      let base : UserIndex :=
        { textCollection := userTextCollectionName user_id
          imageCollection := userImageCollectionName user_id
          docs := []
          imageNodes := [] }
      if has_text_store then
        { store := { vs with user_index := some base }, index := base, events := [] }
      else
        let idx : UserIndex :=
          { base with docs := base.docs ++ [bootstrapMarker user_id] }
        { store := { vs with user_index := some idx }
          index := idx
          events := [.textDoc base.textCollection (bootstrapMarker user_id)] }

/-- `VectorStore._async_init` (vector_stores.py lines 90-121): initialize the
user index, then attach the global store handles (the global index is built
over them with no nodes, so no insertions). -/
def VectorStore.asyncInit (vs : VectorStore) (user_id : String)
    (has_text_store : Bool) : VectorStore × List InsertEvent :=
  let r := vs.init_or_get_user_index user_id has_text_store
  ({ r.store with
      text_store := some globalTextCollectionName
      image_store := some globalImageCollectionName },
   r.events)

/-- `VectorStore.get_instance` (vector_stores.py lines 59-68): builds a brand
new instance with `cls()` on every call and runs `_async_init` on it — there
is no caching despite the docstrings calling the class a singleton. -/
def VectorStore.get_instance (user_id : String) (has_text_store : Bool) :
    VectorStore × List InsertEvent :=
  VectorStore.new.asyncInit user_id has_text_store

/-- `VectorStore.ingest_text` (vector_stores.py lines 171-186): get or create
the user index, then insert a Document whose id is `f"{user_id}_{text_id}"`. -/
def VectorStore.ingest_text (vs : VectorStore) (user_id : String)
    (text_id : String) (text : String) : VectorStore × List InsertEvent :=
  let r := vs.init_or_get_user_index user_id false
  let d : Document := { doc_id := user_id ++ "_" ++ text_id, text := text }
  let idx : UserIndex := { r.index with docs := r.index.docs ++ [d] }
  ({ r.store with user_index := some idx },
   r.events ++ [.textDoc r.index.textCollection d])

/-- `VectorStore.ingest_image` (vector_stores.py lines 188-210): normalize the
request payload, get or create the user index, then insert an ImageNode whose
id is `f"{image_id}"`. -/
def VectorStore.ingest_image (vs : VectorStore)
    (fetch : String → Option Bytes) (pilB64 : Bytes → String)
    (req : ImageIngestionRequest) (image_id : String) :
    VectorStore × List InsertEvent :=
  let image_data := image_req_to_base64 fetch pilB64 req
  let r := vs.init_or_get_user_index req.userId false
  let node : ImageNode := { doc_id := image_id, image := image_data }
  let idx : UserIndex := { r.index with imageNodes := r.index.imageNodes ++ [node] }
  ({ r.store with user_index := some idx },
   r.events ++ [.imageNode r.index.imageCollection node])

/-- A retrieved node: only its textual caption/content matters for prompt
assembly. -/
structure Node where
  content : String
  deriving DecidableEq, Repr

/-- Contract-level model of the external llama-index retrieval and generation
collaborators used by `summarize_user`: `retrieve` maps a retrieval query
string to the ordered node list the backing store returns for it, and `llm`
maps a fully assembled prompt to the generated text. -/
structure RetrievalEnv where
  retrieve : String → List Node
  llm : String → String

/-- The retrieval query passed to `retriever.atext_to_image_retrieve`
(app/api/ai_actions.py lines 109-111); its results are only printed. -/
def analyticRetrievalQuery : String :=
  "Analyze the provided images of the user to find the ones that you believe would showcase personality traits."

/-- The query string submitted to `query_engine.aquery`
(app/api/ai_actions.py line 120). -/
def synthesisQuery : String :=
  "Analyze your knowledgebase of images for the user to create a summary of them."

/-- `image_qa_template_str` (app/api/ai_actions.py lines 89-98) with its two
placeholders filled in, as the query engine formats it. -/
def imageQaTemplate (context_str : String) (query_str : String) : String :=
  "Context information is below.\n" ++
  "-----------------------------\n" ++
  context_str ++
  "-----------------------------\n" ++
  "Given the context information and no prior knowledge, " ++
  "answer the query as in depth as you possibly can.\n" ++
  "Query: " ++ query_str ++ "\n" ++
  "Answer: "

/-- The grounding context the query engine assembles: the textual content of
the retrieved nodes concatenated in retrieval order. -/
def groundingContext (nodes : List Node) : String :=
  String.join (nodes.map Node.content)

/-- One retrieval or generation request issued while summarizing. -/
inductive SummarizeEvent where
  | retrieval (query : String) (results : List Node)
  | generation (prompt : String)
  deriving DecidableEq, Repr

/-- The retrieval queries of an event trace, in order. -/
def retrievalQueries (evs : List SummarizeEvent) : List String :=
  evs.filterMap fun e =>
    match e with
    | .retrieval q _ => some q
    | _ => none

/-- The generation prompts of an event trace, in order. -/
def generationPrompts (evs : List SummarizeEvent) : List String :=
  evs.filterMap fun e =>
    match e with
    | .generation p => some p
    | _ => none

/-- One instance of the `AIActions` class (app/api/ai_actions.py): its
`vector_store` slot, None until `_async_init` runs. -/
structure AIActions where
  vector_store : Option VectorStore
  deriving Repr

/-- `AIActions.get_instance` (app/api/ai_actions.py lines 34-41, 60-66):
build a fresh instance and set its `vector_store` to a fresh
`VectorStore.get_instance`. -/
def AIActions.get_instance (user_id : String) (has_text_store : Bool) : AIActions :=
  { vector_store := some (VectorStore.get_instance user_id has_text_store).1 }

/-- Result of `summarize_user`: the returned value, the retrieval/generation
requests issued, and the durable insertions performed along the way. -/
structure SummarizeResult where
  response : Option String
  events : List SummarizeEvent
  inserts : List InsertEvent
  deriving Repr

/-- `AIActions.summarize_user` (app/api/ai_actions.py lines 68-126): return
None when `self.vector_store` is None (the bare try/assert/except); otherwise
get or create the user index, issue `atext_to_image_retrieve` with the fixed
analytic query (results only printed), then run `query_engine.aquery` with
the synthesis query — the engine retrieves for that query, formats
`image_qa_template_str` with the grounding context of the nodes it retrieved,
submits one generation request, and its response is returned verbatim.
Everything after the first `return response` in the source is dead code and
is not modelled. -/
def AIActions.summarize_user (a : AIActions) (env : RetrievalEnv)
    (user_id : String) : SummarizeResult :=
  match a.vector_store with
  | none => { response := none, events := [], inserts := [] }
  | some vs =>
      let r := vs.init_or_get_user_index user_id false
      let image_nodes := env.retrieve analyticRetrievalQuery
      let engine_nodes := env.retrieve synthesisQuery
      let prompt := imageQaTemplate (groundingContext engine_nodes) synthesisQuery
      { response := some (env.llm prompt)
        events :=
          [.retrieval analyticRetrievalQuery image_nodes,
           .retrieval synthesisQuery engine_nodes,
           .generation prompt]
        inserts := r.events }

/-- `ServerResponse` (app/models/models.py lines 14-30), with `data` reduced
to the optional summary string the summarize route carries. -/
structure ServerResponse where
  status : Nat
  message : String
  data : Option String
  deriving DecidableEq, Repr

/-- `Server.get_summary` (app/server.py lines 185-211): always build a fresh
`AIActions.get_instance` for the requested user (initializing the vector
store even for a never-seen user), call `summarize_user`, and wrap the result
in a status-200 envelope; the model has no failing operation, so the except
branch is unreachable here. -/
def Server.get_summary (env : RetrievalEnv) (user_id : String) : ServerResponse :=
  let actions := AIActions.get_instance user_id false
  let r := actions.summarize_user env user_id
  { status := 200, message := "Summary Generated", data := r.response }

/-- The operations the image-ingestion handler performs against the
collaborators, in order. -/
inductive HandlerEvent where
  | getInstanceOp (user_id : String)
  | fetchOp (url : String)
  | ingestTextOp (user_id : String) (text_id : String)
  | ingestImageOp (image_id : String)
  deriving DecidableEq, Repr

/-- A Python runtime error raised inside a handler. -/
inductive PyError where
  | nameError (n : String)
  deriving DecidableEq, Repr

/-- Python `str(e)` for the modelled errors (Python also quotes the name). -/
def pyStr : PyError → String
  | .nameError n => "name " ++ n ++ " is not defined"

/-- The condition of app/server.py lines 132-135:
`image_request.image_url is not None and len(image_request.image_url) > 0`. -/
def urlGiven (req : ImageIngestionRequest) : Bool :=
  match req.image_url with
  | some u => decide (0 < u.length)
  | none => false

/-- The try-block of `Server.ingest_image_and_maybe_text`
(app/server.py lines 127-177).  The URL branch assigns the fetched bytes and
then evaluates `document.get("$id")` where `document` is an undefined name,
so it raises NameError before any ingestion; the inline branch draws a random
numeric id, optionally ingests the paired text, ingests the image and returns
200; with no image at all it returns 400. -/
def Server.ingestBody (fetch : String → Option Bytes) (randomId : Nat)
    (req : ImageIngestionRequest) :
    Except (PyError × List HandlerEvent) (ServerResponse × List HandlerEvent) :=
  let evs0 : List HandlerEvent := [.getInstanceOp req.userId]
  if urlGiven req then
    let url := req.image_url.getD ""
    let _image := fetch url
    .error (.nameError "document", evs0 ++ [.fetchOp url])
  else if req.image = ImageField.absent then
    .ok ({ status := 400, message := "No image or image URL provided", data := none },
         evs0)
  else
    let image_id := toString randomId
    let evs1 :=
      match req.text_request with
      | some _ => evs0 ++ [HandlerEvent.ingestTextOp req.userId image_id]
      | none => evs0
    .ok ({ status := 200, message := "Image and Text (if provided) Ingested", data := none },
         evs1 ++ [.ingestImageOp image_id])

/-- `Server.ingest_image_and_maybe_text` (app/server.py lines 120-183): the
try-block above with its except-clause, which wraps any raised error in a
status-500 envelope built from `str(e)`. -/
def Server.ingest_image_and_maybe_text (fetch : String → Option Bytes)
    (randomId : Nat) (req : ImageIngestionRequest) :
    ServerResponse × List HandlerEvent :=
  match Server.ingestBody fetch randomId req with
  | .ok r => r
  | .error (e, evs) =>
      ({ status := 500, message := "Error ingesting image and/or text: " ++ pyStr e,
         data := none }, evs)

/-- Content kind of a collection. -/
inductive Kind where
  | text
  | image
  deriving DecidableEq, Repr

/-- The kind as the string used in collection names. -/
def Kind.str : Kind → String
  | .text => "text"
  | .image => "image"

/-- The per-user collection name the code resolves for a kind
(vector_stores.py lines 144 and 149). -/
def codeUserCollectionName (user_id : String) : Kind → String
  | .text => userTextCollectionName user_id
  | .image => userImageCollectionName user_id

/-- The global collection name the code resolves for a kind
(vector_stores.py lines 103 and 108). -/
def codeGlobalCollectionName : Kind → String
  | .text => globalTextCollectionName
  | .image => globalImageCollectionName

/-- Modelled from the spec wording, for comparison with the code: per-user
collections are named `{user_id}_{kind}`. -/
def specUserCollectionName (user_id : String) (kind : Kind) : String :=
  user_id ++ ("_" ++ kind.str)

/-- Modelled from the spec wording, for comparison with the code: global
collections are named `global_{kind}`. -/
def specGlobalCollectionName (kind : Kind) : String :=
  "global_" ++ kind.str

/-- The bootstrap-marker insertion event for a user. -/
def bootstrapEvent (user_id : String) : InsertEvent :=
  .textDoc (userTextCollectionName user_id) (bootstrapMarker user_id)

/-- How many bootstrap markers for `user_id` a list of insertions contains. -/
def countBootstrapInserts (user_id : String) (evs : List InsertEvent) : Nat :=
  (evs.filter fun e => decide (e = bootstrapEvent user_id)).length

/-! Helper lemmas shared by the claim theorems. -/

/-- The id of the last insertion of a trace that ends with an explicit
event. -/
theorem lastItemId (l : List InsertEvent) (e : InsertEvent) :
    ((l ++ [e]).getLast?).map InsertEvent.itemId = some e.itemId := by
  rw [List.getLast?_append_cons]
  rfl

/-! Claim theorems. -/

/-- Claim C1 (code bug): the claim says repeated `get_instance` calls for the
same user return the same Index instance and insert the bootstrap marker at
most once per user per process.  The class docstring calls `VectorStore` a
singleton and the `__init__` docstring says an existing instance should raise,
but `get_instance` builds a brand-new instance with `cls()` on every call, so
two first-time calls for the same new user each construct an index and each
insert the bootstrap marker: evaluating the code on two successive calls for
user 1234567890 yields two bootstrap-marker insertions into the same durable
collection, never one. -/
theorem C1_two_bootstrap_markers :
    countBootstrapInserts "1234567890"
      ((VectorStore.get_instance "1234567890" false).2 ++
       (VectorStore.get_instance "1234567890" false).2) = 2 := by
  decide

/-- Claim C2, counterexample: the claim says the resolved global collection
name is exactly `global_{kind}`, but the code resolves the global text
collection to `global_text_store`. -/
theorem C2_counterexample :
    codeGlobalCollectionName Kind.text = "global_text_store" ∧
    specGlobalCollectionName Kind.text = "global_text" ∧
    codeGlobalCollectionName Kind.text ≠ specGlobalCollectionName Kind.text := by
  decide

/-- Claim C2, amended: for every user id and kind the per-user collection name
is exactly `{user_id}_{kind}` as the spec says, and the global collection name
is `global_{kind}_store` (the spec formula with a `_store` suffix); both are
deterministic functions of (user id, kind). -/
theorem C2_collection_names (u : String) (k : Kind) :
    codeUserCollectionName u k = specUserCollectionName u k ∧
    codeGlobalCollectionName k = specGlobalCollectionName k ++ "_store" := by
  cases k <;> exact ⟨rfl, rfl⟩

/-- Claim C3, counterexample: the claim says normalizing the inline base64
string form of an image and normalizing the equivalent raw bytes produce
identical payloads.  For the one-byte image `[0]`, whose base64 text is
`AA==`, the string form is stored as the bytes of the text `AA==` while the
raw bytes form is stored unchanged, so the payloads differ. -/
theorem C3_counterexample :
    b64encode [0] = "AA==" ∧
    image_req_to_base64 (fun _ => none) (fun _ => "")
        { userId := "u3", image_url := none, image := ImageField.str "AA==",
          mimetype := "image/png", text_request := none } ≠
      image_req_to_base64 (fun _ => none) (fun _ => "")
        { userId := "u3", image_url := none, image := ImageField.bytes [0],
          mimetype := "image/png", text_request := none } := by
  decide

/-- Claim C3, amended: the normalizer treats a bytes payload as already
base64-encoded, so the string form and the bytes form agree exactly when the
bytes form carries the encoded bytes of the base64 text itself (not the
decoded raw image). -/
theorem C3_bytes_as_base64 (fetch : String → Option Bytes)
    (pilB64 : Bytes → String) (uid m : String) (tr : Option String) (s : String) :
    image_req_to_base64 fetch pilB64
        { userId := uid, image_url := none, image := ImageField.str s,
          mimetype := m, text_request := tr } =
      image_req_to_base64 fetch pilB64
        { userId := uid, image_url := none, image := ImageField.bytes (strBytes s),
          mimetype := m, text_request := tr } := rfl

/-- Claim C4 (confirmed): on first construction of the user index (the
`user_index` slot still empty), `init_or_get_user_index` with
`has_text_store = false` performs exactly one insertion, of the bootstrap
marker document whose id is the user id and whose text records that the user
id is the users global Appwrite User ID; with `has_text_store = true` it
performs no insertion. -/
theorem C4_bootstrap_marker_once (t i : Option String) (u : String) :
    ((VectorStore.mk none t i).init_or_get_user_index u false).events =
      [InsertEvent.textDoc (userTextCollectionName u)
        { doc_id := u, text := u ++ " is the users global Appwrite User ID" }] ∧
    ((VectorStore.mk none t i).init_or_get_user_index u true).events = [] :=
  ⟨rfl, rfl⟩

/-- Environment distinguishing the two retrieval queries of `summarize_user`,
used to refute claim C5. -/
def envC5 : RetrievalEnv where
  retrieve q := if q = synthesisQuery then [{ content := "B" }] else [{ content := "A" }]
  llm p := p

/-- Claim C5, counterexample: the claim says summarize issues exactly one
retrieval query (with the fixed analytic prompt) and builds the grounding
context from the nodes that query retrieved.  In an environment where the
analytic query retrieves node A and the synthesis query retrieves node B, the
trace contains two retrieval queries, and the single generation prompt is
built from node B — the nodes of the second, engine-internal retrieval — not
from the analytic-query nodes. -/
theorem C5_counterexample :
    ¬ (retrievalQueries
          ((AIActions.mk (some VectorStore.new)).summarize_user envC5 "U1").events =
        [analyticRetrievalQuery] ∧
       generationPrompts
          ((AIActions.mk (some VectorStore.new)).summarize_user envC5 "U1").events =
        [imageQaTemplate (groundingContext (envC5.retrieve analyticRetrievalQuery))
          synthesisQuery]) := by
  decide

/-- Claim C5, amended: for every initialized orchestrator, summarize issues
exactly two retrieval queries — first the fixed analytic prompt, whose results
are only logged and discarded, then the fixed synthesis query inside the query
engine; the grounding context concatenates the synthesis-query nodes in
retrieval order; exactly one generation request carries that context with the
synthesis query; and the generated text is returned verbatim. -/
theorem C5_retrieval_synthesis_flow (env : RetrievalEnv) (vs : VectorStore)
    (u : String) :
    retrievalQueries ((AIActions.mk (some vs)).summarize_user env u).events =
      [analyticRetrievalQuery, synthesisQuery] ∧
    generationPrompts ((AIActions.mk (some vs)).summarize_user env u).events =
      [imageQaTemplate (groundingContext (env.retrieve synthesisQuery)) synthesisQuery] ∧
    ((AIActions.mk (some vs)).summarize_user env u).response =
      some (env.llm
        (imageQaTemplate (groundingContext (env.retrieve synthesisQuery)) synthesisQuery)) :=
  ⟨rfl, rfl, rfl⟩

/-- Environment whose generation service always answers `S`, used to refute
claim C6. -/
def envC6 : RetrievalEnv where
  retrieve _ := []
  llm _ := "S"

/-- Claim C6, counterexample: the claim says summarize for a never-seen user
returns NotReady.  A fresh process handling `summarize` for never-seen user U2
initializes the vector store on the way (the route calls
`AIActions.get_instance` unconditionally), so the orchestrator proceeds and
returns a generated summary with status 200 — not NotReady (the data field is
not empty). -/
theorem C6_counterexample :
    Server.get_summary envC6 "U2" =
      { status := 200, message := "Summary Generated", data := some "S" } ∧
    (Server.get_summary envC6 "U2").data ≠ none := by
  decide

/-- Claim C6, amended: `summarize_user` returns NotReady (None) exactly when
its `vector_store` slot was never initialized; the `get_summary` route always
initializes the store first — creating an index even for a never-seen user —
so it always returns a status-200 envelope carrying the generated summary,
never NotReady. -/
theorem C6_not_ready_condition :
    (∀ env u, (AIActions.mk none).summarize_user env u =
        { response := none, events := [], inserts := [] }) ∧
    (∀ env u, (Server.get_summary env u).status = 200 ∧
      (Server.get_summary env u).data =
        some (env.llm
          (imageQaTemplate (groundingContext (env.retrieve synthesisQuery))
            synthesisQuery))) :=
  ⟨fun _ _ => rfl, fun _ _ => ⟨rfl, rfl⟩⟩

/-- Claim C7, counterexample: the claim says the normalizer returns a
NoImageProvided outcome with no image and a distinct FetchFailed outcome on a
failed fetch, and that on a failed fetch the ingestion aborts before any
Index Manager operation.  In the code both cases return the same
undifferentiated None, and the handler invokes `VectorStore.get_instance`
(the Index Manager) before the fetch, as the event trace of a bad-URL request
shows. -/
theorem C7_counterexample :
    image_req_to_base64 (fun _ => none) (fun _ => "")
        { userId := "u7", image_url := some "http://unreachable",
          image := ImageField.absent, mimetype := "image/jpeg",
          text_request := none } =
      image_req_to_base64 (fun _ => none) (fun _ => "")
        { userId := "u7", image_url := none, image := ImageField.absent,
          mimetype := "image/jpeg", text_request := none } ∧
    HandlerEvent.getInstanceOp "u7" ∈
      (Server.ingest_image_and_maybe_text (fun _ => none) 0
        { userId := "u7", image_url := some "http://unreachable",
          image := ImageField.absent, mimetype := "image/jpeg",
          text_request := none }).2 := by
  decide

/-- Claim C7, amended: with neither URL nor inline data the normalizer
returns None and the handler answers 400 (after having instantiated the
vector store); with a non-empty URL whose fetch fails the normalizer also
returns the same None, and the handler ends with status 500 (the NameError on
`document`) after a trace that already contains the `get_instance`
Index-Manager operation followed by the fetch. -/
theorem C7_normalizer_and_abort (fetch : String → Option Bytes)
    (pilB64 : Bytes → String) (req : ImageIngestionRequest) (rid : Nat) :
    (req.image_url = none → req.image = ImageField.absent →
      image_req_to_base64 fetch pilB64 req = none ∧
      Server.ingest_image_and_maybe_text fetch rid req =
        ({ status := 400, message := "No image or image URL provided", data := none },
         [HandlerEvent.getInstanceOp req.userId])) ∧
    (∀ url, req.image_url = some url → 0 < url.length → fetch url = none →
      image_req_to_base64 fetch pilB64 req = none ∧
      (Server.ingest_image_and_maybe_text fetch rid req).1.status = 500 ∧
      (Server.ingest_image_and_maybe_text fetch rid req).2 =
        [HandlerEvent.getInstanceOp req.userId, HandlerEvent.fetchOp url]) := by
  obtain ⟨uid, iu, im, mt, tr⟩ := req
  constructor
  · intro h1 h2
    cases h1
    cases h2
    exact ⟨rfl, rfl⟩
  · intro url h1 h2 h3
    cases h1
    refine ⟨?_, ?_, ?_⟩
    · simp [image_req_to_base64, h3]
    · simp [Server.ingest_image_and_maybe_text, Server.ingestBody, urlGiven, h2]
    · simp [Server.ingest_image_and_maybe_text, Server.ingestBody, urlGiven, h2]

/-- Witness for C7_normalizer_and_abort at concrete requests: a request with
neither URL nor image normalizes to None, and a request with an unreachable
URL ends with status 500. -/
theorem C7_witness :
    image_req_to_base64 (fun _ => none) (fun _ => "")
        { userId := "w7", image_url := none, image := ImageField.absent,
          mimetype := "image/jpeg", text_request := none } = none ∧
    (Server.ingest_image_and_maybe_text (fun _ => none) 0
        { userId := "w7", image_url := some "http://x", image := ImageField.absent,
          mimetype := "image/jpeg", text_request := none }).1.status = 500 :=
  ⟨((C7_normalizer_and_abort (fun _ => none) (fun _ => "")
      { userId := "w7", image_url := none, image := ImageField.absent,
        mimetype := "image/jpeg", text_request := none } 0).1 rfl rfl).1,
   ((C7_normalizer_and_abort (fun _ => none) (fun _ => "")
      { userId := "w7", image_url := some "http://x", image := ImageField.absent,
        mimetype := "image/jpeg", text_request := none } 0).2 "http://x" rfl
      (by decide) rfl).2.1⟩

/-- Claim C8, counterexample: the claim says the stored document carries
exactly the caller-supplied id.  Ingesting text with id `t` for user `u`
stores the document under id `u_t`, not `t`. -/
theorem C8_counterexample :
    ((VectorStore.new.ingest_text "u" "t" "x").2.getLast?).map InsertEvent.itemId ≠
      some "t" ∧
    ((VectorStore.new.ingest_text "u" "t" "x").2.getLast?).map InsertEvent.itemId =
      some "u_t" := by
  decide

/-- Claim C8, amended: `ingest_image` preserves the caller-supplied id — the
stored image node carries exactly `image_id` — while `ingest_text` stores the
document under `{user_id}_{text_id}`, prefixing the user id to the
caller-supplied id. -/
theorem C8_stored_ids (vs : VectorStore) (u tid text : String)
    (fetch : String → Option Bytes) (pilB64 : Bytes → String)
    (req : ImageIngestionRequest) (iid : String) :
    ((vs.ingest_text u tid text).2.getLast?).map InsertEvent.itemId =
      some (u ++ "_" ++ tid) ∧
    ((vs.ingest_image fetch pilB64 req iid).2.getLast?).map InsertEvent.itemId =
      some iid := by
  constructor
  · show (((vs.init_or_get_user_index u false).events ++
        [InsertEvent.textDoc (vs.init_or_get_user_index u false).index.textCollection
          { doc_id := u ++ "_" ++ tid, text := text }]).getLast?).map
        InsertEvent.itemId = some (u ++ "_" ++ tid)
    rw [lastItemId]
    rfl
  · show (((vs.init_or_get_user_index req.userId false).events ++
        [InsertEvent.imageNode
          (vs.init_or_get_user_index req.userId false).index.imageCollection
          { doc_id := iid, image := image_req_to_base64 fetch pilB64 req }]).getLast?).map
        InsertEvent.itemId = some iid
    rw [lastItemId]
    rfl

/-- Claim C10 (confirmed): for every request whose `image_url` is a non-empty
string, the handler evaluates the undefined name `document` right after the
fetch, so it always raises NameError and returns a status-500 envelope; the
event trace stops at the fetch — no ingestion happens and the status-200
success branch of URL-based ingestion is unreachable. -/
theorem C10_url_branch_name_error (fetch : String → Option Bytes) (rid : Nat)
    (req : ImageIngestionRequest) (url : String)
    (h1 : req.image_url = some url) (h2 : 0 < url.length) :
    Server.ingest_image_and_maybe_text fetch rid req =
      ({ status := 500,
         message := "Error ingesting image and/or text: " ++
           pyStr (PyError.nameError "document"),
         data := none },
       [HandlerEvent.getInstanceOp req.userId, HandlerEvent.fetchOp url]) := by
  obtain ⟨uid, iu, im, mt, tr⟩ := req
  cases h1
  simp [Server.ingest_image_and_maybe_text, Server.ingestBody, urlGiven, h2]

/-- Witness for C10_url_branch_name_error at the request of server_test.py:
user 1234567890 with the picsum URL gets a 500 NameError envelope. -/
theorem C10_witness :
    Server.ingest_image_and_maybe_text (fun _ => some [1]) 7
        { userId := "1234567890", image_url := some "https://picsum.photos/500",
          image := ImageField.absent, mimetype := "image/jpeg",
          text_request := none } =
      ({ status := 500,
         message := "Error ingesting image and/or text: " ++
           pyStr (PyError.nameError "document"),
         data := none },
       [HandlerEvent.getInstanceOp "1234567890",
        HandlerEvent.fetchOp "https://picsum.photos/500"]) :=
  C10_url_branch_name_error (fun _ => some [1]) 7
    { userId := "1234567890", image_url := some "https://picsum.photos/500",
      image := ImageField.absent, mimetype := "image/jpeg", text_request := none }
    "https://picsum.photos/500" rfl (by decide)

end LlamaIndexAPI
